import Mathlib

/-!
# Verification of the Jira compliance rule-evaluation engine

Shallow embedding of `src/jira_check.py` (class `JiraCheckTool` and the parts of the
data flow the checks touch).  Python exceptions (a `ValueError` from
`datetime.strptime` on a malformed date string, or an `AttributeError` from
`issue.fields.security.name` when the security field is `None`) are modelled by the
checker returning `none`; a normal return of the violation list `l` is `some l`.
The ambient wall clock read by `datetime.now()` inside the delay check is made
explicit as a `DateTime` argument `now`: it denotes the clock value at the moment
of the call.
-/

namespace JiraCheck

/-- A calendar date, as produced by `datetime.strptime(s, '%Y-%m-%d').date()`. -/
structure Date where
  year : Nat
  month : Nat
  day : Nat
deriving DecidableEq, Repr

/-- A timestamp: a date plus the time elapsed since that day's midnight
(in abstract sub-day units; `0` is midnight itself).  Models a Python
`datetime` value for the purposes of the strict comparisons the code performs. -/
structure DateTime where
  date : Date
  timeOfDay : Nat
deriving DecidableEq, Repr

/-- Strict `<` on dates (Python compares `date` objects lexicographically by
year, month, day). -/
def dateLt (a b : Date) : Bool :=
  decide (a.year < b.year ∨
    (a.year = b.year ∧ (a.month < b.month ∨ (a.month = b.month ∧ a.day < b.day))))

/-- Strict `<` on timestamps (lexicographic on date then time of day, as Python
compares `datetime` objects). -/
def dtLt (a b : DateTime) : Bool :=
  dateLt a.date b.date || (decide (a.date = b.date) && decide (a.timeOfDay < b.timeOfDay))

/-- Split a character list at every occurrence of the separator `c`
(the list analogue of Python `str.split('-')` with all parts kept). -/
def splitOnChar (c : Char) : List Char → List (List Char)
  | [] => [[]]
  | a :: rest =>
    let r := splitOnChar c rest
    if a = c then [] :: r
    else
      match r with
      | [] => [[a]]
      | h :: t => (a :: h) :: t

/-- Numeric value of a list of decimal digit characters (most significant first). -/
def digitsVal (l : List Char) : Nat :=
  l.foldl (fun acc c => acc * 10 + (c.toNat - 48)) 0

/-- All characters are ASCII decimal digits. -/
def allDigits (l : List Char) : Bool :=
  !l.isEmpty && l.all Char.isDigit

/-- Length of month `m` of year `y` in days, with the Gregorian leap rule —
the day-of-month validation `datetime`'s constructor performs. -/
def daysInMonth (y m : Nat) : Nat :=
  if m = 2 then (if y % 4 = 0 && (y % 100 != 0 || y % 400 = 0) then 29 else 28)
  else if m = 4 || m = 6 || m = 9 || m = 11 then 30
  else 31

/-- `datetime.strptime(s, '%Y-%m-%d')`: exactly three `-`-separated fields;
`%Y` is exactly four digits, `%m` and `%d` are one or two digits with no
two-digit `0`-value; the `datetime` constructor then requires `1 ≤ year`,
`1 ≤ month ≤ 12` and `1 ≤ day ≤` the month's length.  `none` models the
`ValueError` raised on any other input. -/
def parseDateYMD (s : String) : Option Date :=
  match splitOnChar '-' s.data with
  | [ys, ms, ds] =>
    if ys.length = 4 && allDigits ys && allDigits ms && ms.length ≤ 2
        && allDigits ds && ds.length ≤ 2 then
      let y := digitsVal ys
      let m := digitsVal ms
      let d := digitsVal ds
      if 1 ≤ y && 1 ≤ m && m ≤ 12 && 1 ≤ d && d ≤ daysInMonth y m then
        some ⟨y, m, d⟩
      else none
    else none
  | _ => none

/-- The `%z` timezone directive: `Z`/`z`, or a sign followed by `HHMM` or
`HH:MM` with `HH ≤ 23` and `MM ≤ 59` (the canonical offsets Jira emits). -/
def parseTz (l : List Char) : Bool :=
  match l with
  | ['Z'] => true
  | ['z'] => true
  | sign :: rest =>
    (sign = '+' || sign = '-') &&
    (let body :=
      match rest with
      | [h1, h2, ':', m1, m2] => [h1, h2, m1, m2]
      | other => other
     body.length = 4 && allDigits body &&
       digitsVal (body.take 2) ≤ 23 && digitsVal (body.drop 2) ≤ 59)
  | [] => false

/-- `datetime.strptime(s, '%Y-%m-%dT%H:%M:%S.%f%z').date()`: the date part as
for `%Y-%m-%d`, a literal `T`, `HH:MM:SS` with the ranges `strptime` accepts,
a literal dot, one to six fractional digits, then a timezone; `.date()` keeps
only the date components (no timezone conversion).  `none` models the
`ValueError` on any other input. -/
def parseResolutionDate (s : String) : Option Date :=
  match splitOnChar 'T' s.data with
  | [datePart, timePart] =>
    match parseDateYMD ⟨datePart⟩ with
    | none => none
    | some d =>
      match splitOnChar '.' timePart with
      | [hms, fracTz] =>
        let ok :=
          (match splitOnChar ':' hms with
           | [hs, ms2, ss] =>
             allDigits hs && hs.length ≤ 2 && digitsVal hs ≤ 23 &&
             allDigits ms2 && ms2.length ≤ 2 && digitsVal ms2 ≤ 59 &&
             allDigits ss && ss.length ≤ 2 && digitsVal ss ≤ 61
           | _ => false) &&
          (let frac := fracTz.takeWhile Char.isDigit
           let tz := fracTz.dropWhile Char.isDigit
           1 ≤ frac.length && frac.length ≤ 6 && parseTz tz)
        if ok then some d else none
      | _ => none
  | _ => none

/-- `pat` occurs at the start of `s` (character lists). -/
def charsStartWith : List Char → List Char → Bool
  | [], _ => true
  | _ :: _, [] => false
  | p :: ps, s :: ss => p = s && charsStartWith ps ss

/-- `pat` occurs somewhere inside `s` (character lists): Python's substring `in`. -/
def charsContain (pat : List Char) : List Char → Bool
  | [] => pat.isEmpty
  | c :: rest => charsStartWith pat (c :: rest) || charsContain pat rest

/-- Python `pat in s` on strings. -/
def strContains (s pat : String) : Bool :=
  charsContain pat.data s.data

/-- ASCII lower-casing of a string, modelling `str.lower()` on the ASCII
markers the checks scan for. -/
def lowerString (s : String) : String :=
  ⟨s.data.map Char.toLower⟩

/-- The comment pre-processing shared by `check_story` and `check_bug`:
concatenate every comment body followed by `"\n"`, then lower-case. -/
def concatComments (comments : List String) : String :=
  lowerString (comments.foldl (fun acc c => acc ++ c ++ "\n") "")

/-- `issue.fields.issuetype`: the type's display name and its `subtask` flag. -/
structure IssueType where
  name : String
  subtask : Bool
deriving DecidableEq, Repr

/-- `issue.fields`, restricted to the fields the checks read.
`none` throughout models a Python `None` (or absent) field value.
`components` holds the component names (`[item.name for item in components]`);
`security` holds the security level's `.name` when the field is set;
`customfield_11807` is the implementer field, `customfield_10408` the story
points; `comments` holds the bodies of `fields.comment.comments` in order. -/
structure IssueFields where
  issuetype : IssueType
  duedate : Option String
  resolutiondate : Option String
  fixVersions : List String
  components : List String
  labels : Option (List String)
  customfield_11807 : Option String
  security : Option String
  customfield_10408 : Option Int
  comments : List String
deriving DecidableEq, Repr

/-- One Jira issue: its key and its fields. -/
structure Issue where
  key : String
  fields : IssueFields
deriving DecidableEq, Repr

/-- `JiraCheckTool.__common_problem(issue, err_list)`: append the common-check
codes to `err_list`.  `now` is the value `datetime.now()` returns at the call.
`none` models the exception paths: an unparsable `duedate` or
`resolutiondate` string (`strptime` raises `ValueError`) and an absent
`security` field (`None.name` raises `AttributeError`). -/
def common_problem (now : DateTime) (issue : Issue) (errList : List String) :
    Option (List String) :=
  let f := issue.fields
  let step1 : Option (List String) :=
    match f.duedate with
    | none => some (errList ++ ["No DudeDate"])
    | some ds =>
      match parseDateYMD ds with
      | none => none
      | some dueDate =>
        match f.resolutiondate with
        | none =>
          if dtLt ⟨dueDate, 0⟩ now then some (errList ++ ["Delay"]) else some errList
        | some rs =>
          match parseResolutionDate rs with
          | none => none
          | some resolutionDate =>
            if dateLt dueDate resolutionDate then some (errList ++ ["Delay"])
            else some errList
  match step1 with
  | none => none
  | some e1 =>
    let e2 := if f.fixVersions.length = 0 then e1 ++ ["No FixVersions"] else e1
    let e3 := if "chengdu" ∉ f.components then e2 ++ ["No Component Chengdu"] else e2
    let e4 := if f.labels = none then e3 ++ ["No Labels"] else e3
    let e5 := if f.customfield_11807 = none then e4 ++ ["No Implementer"] else e4
    match f.security with
    | none => none
    | some securityName =>
      if "Askey-Secure" ≠ securityName then some (e5 ++ ["No Askey-Secure"])
      else some e5

/-- The `err_list` built by `check_story` before it calls `__common_problem`. -/
def storyPre (f : IssueFields) : List String :=
  let comment := concatComments f.comments
  let e1 := if strContains comment "[commitlink]" = false then ["No Code"] else []
  let e2 :=
    if strContains comment "[version]" = false ∨ strContains comment "[steps]" = false
        ∨ strContains comment "[result]" = false then
      e1 ++ ["No Verification"]
    else e1
  match f.customfield_10408 with
  | none => e2 ++ ["No StoryPoints", "No SubTask"]
  | some p =>
    if 3 < p ∧ f.issuetype.subtask = false then e2 ++ ["No SubTask"] else e2

/-- The `err_list` built by `check_bug` before it calls `__common_problem`. -/
def bugPre (f : IssueFields) : List String :=
  let comment := concatComments f.comments
  let e0 := if strContains comment "[analyse]" = false then ["No Analyse"] else []
  let e1 := if strContains comment "[solution]" = false then e0 ++ ["No Solution"] else e0
  let e2 := if strContains comment "[commitlink]" = false then e1 ++ ["No Code"] else e1
  let e3 :=
    if strContains comment "[version]" = false ∨ strContains comment "[steps]" = false
        ∨ strContains comment "[result]" = false then
      e2 ++ ["No Verification"]
    else e2
  match f.customfield_10408 with
  | none => e3 ++ ["No StoryPoints", "No SubTask"]
  | some p =>
    if 3 < p ∧ f.issuetype.subtask = false then e3 ++ ["No SubTask"] else e3

/-- The `err_list` built by `check_review` before it calls `__common_problem`. -/
def reviewPre (f : IssueFields) : List String :=
  match f.customfield_10408 with
  | none => ["No StoryPoints"]
  | some _ => []

/-- `JiraCheckTool.check_story(issue)`. -/
def check_story (now : DateTime) (issue : Issue) : Option (List String) :=
  common_problem now issue (storyPre issue.fields)

/-- `JiraCheckTool.check_bug(issue)`. -/
def check_bug (now : DateTime) (issue : Issue) : Option (List String) :=
  common_problem now issue (bugPre issue.fields)

/-- `JiraCheckTool.check_review(issue)`. -/
def check_review (now : DateTime) (issue : Issue) : Option (List String) :=
  common_problem now issue (reviewPre issue.fields)

/-- `JiraCheckTool.check_issue(issue)`: dispatch on the issue type's name. -/
def check_issue (now : DateTime) (issue : Issue) : Option (List String) :=
  let n := issue.fields.issuetype.name
  if n = "Story" ∨ n = "故事" then check_story now issue
  else if n = "Bug" ∨ n = "缺陷" then check_bug now issue
  else if n = "Review" then check_review now issue
  else some []

/-- `JiraCheckTool.get_project_problem(project)`: evaluate each issue in order,
keeping `(key, violations)` exactly when the violation list is non-empty.
An exception in any issue's evaluation aborts the whole run (`none`). -/
def get_project_problem (now : DateTime) : List Issue → Option (List (String × List String))
  | [] => some []
  | issue :: rest =>
    match check_issue now issue with
    | none => none
    | some unqualified =>
      match get_project_problem now rest with
      | none => none
      | some tail =>
        if unqualified.length ≠ 0 then some ((issue.key, unqualified) :: tail)
        else some tail

/-! ## Factored view of `__common_problem`, used by the proofs -/

/-- The codes the due-date/delay block of `__common_problem` appends, in
isolation from the incoming `err_list` (`none` models the `ValueError` on an
unparsable date string). -/
def dueTail (now : DateTime) (f : IssueFields) : Option (List String) :=
  match f.duedate with
  | none => some ["No DudeDate"]
  | some ds =>
    match parseDateYMD ds with
    | none => none
    | some dueDate =>
      match f.resolutiondate with
      | none => if dtLt ⟨dueDate, 0⟩ now then some ["Delay"] else some []
      | some rs =>
        match parseResolutionDate rs with
        | none => none
        | some resolutionDate =>
          if dateLt dueDate resolutionDate then some ["Delay"] else some []

/-- All the codes `__common_problem` appends, in isolation from the incoming
`err_list` (`none` models its exception paths). -/
def commonTail (now : DateTime) (f : IssueFields) : Option (List String) :=
  match dueTail now f with
  | none => none
  | some d =>
    match f.security with
    | none => none
    | some securityName =>
      some (d ++ (if f.fixVersions.length = 0 then ["No FixVersions"] else [])
              ++ (if "chengdu" ∉ f.components then ["No Component Chengdu"] else [])
              ++ (if f.labels = none then ["No Labels"] else [])
              ++ (if f.customfield_11807 = none then ["No Implementer"] else [])
              ++ (if "Askey-Secure" ≠ securityName then ["No Askey-Secure"] else []))

/-- The common-check codes, in the order `__common_problem` can append them. -/
def commonCodes : List String :=
  ["No DudeDate", "Delay", "No FixVersions", "No Component Chengdu", "No Labels",
   "No Implementer", "No Askey-Secure"]

set_option maxHeartbeats 2000000 in
/-- `__common_problem` returns its argument list followed by the common-check
codes of `commonTail`, and fails exactly when `commonTail` does. -/
theorem common_problem_eq (now : DateTime) (issue : Issue) (errList : List String) :
    common_problem now issue errList = (commonTail now issue.fields).map (errList ++ ·) := by
  obtain ⟨k, ⟨it, dd, rd, fv, cs, lb, cf1, sec, cf2, cm⟩⟩ := issue
  cases dd with
  | none =>
    cases sec <;> simp only [common_problem, commonTail, dueTail, Option.map] <;>
      split_ifs <;> simp [List.append_assoc]
  | some ds =>
    cases hp : parseDateYMD ds with
    | none => cases sec <;> simp [common_problem, commonTail, dueTail, hp]
    | some due =>
      cases rd with
      | none =>
        cases sec <;> simp only [common_problem, commonTail, dueTail, hp, Option.map] <;>
          split_ifs <;> simp [List.append_assoc]
      | some rs =>
        cases hr : parseResolutionDate rs with
        | none => cases sec <;> simp [common_problem, commonTail, dueTail, hp, hr]
        | some resD =>
          cases sec <;> simp only [common_problem, commonTail, dueTail, hp, hr, Option.map] <;>
            split_ifs <;> simp [List.append_assoc]

/-- An `if` that yields either a singleton or nothing is a sublist of the
singleton. -/
theorem ite_singleton_sublist (P : Prop) [Decidable P] (x : α) :
    List.Sublist (if P then [x] else []) [x] := by
  split <;> simp

/-- The due-date block appends a sublist of `[No DudeDate, Delay]`. -/
theorem dueTail_sublist {now : DateTime} {f : IssueFields} {d : List String}
    (h : dueTail now f = some d) : List.Sublist d ["No DudeDate", "Delay"] := by
  cases hdd : f.duedate with
  | none =>
    simp only [dueTail, hdd, Option.some.injEq] at h
    subst h; decide
  | some ds =>
    cases hp : parseDateYMD ds with
    | none => simp [dueTail, hdd, hp] at h
    | some due =>
      cases hrd : f.resolutiondate with
      | none =>
        simp only [dueTail, hdd, hp, hrd] at h
        split_ifs at h <;> simp only [Option.some.injEq] at h <;> subst h <;> decide
      | some rs =>
        cases hr : parseResolutionDate rs with
        | none => simp [dueTail, hdd, hp, hrd, hr] at h
        | some resD =>
          simp only [dueTail, hdd, hp, hrd, hr] at h
          split_ifs at h <;> simp only [Option.some.injEq] at h <;> subst h <;> decide

/-- Successful runs of the common checks: the due-date block succeeded, the
security field was present, and the result is the block's codes followed by
the five independent conditional codes. -/
theorem commonTail_some_eq {now : DateTime} {f : IssueFields} {t : List String}
    (h : commonTail now f = some t) :
    ∃ d s, dueTail now f = some d ∧ f.security = some s ∧
      t = d ++ (if f.fixVersions.length = 0 then ["No FixVersions"] else [])
            ++ (if "chengdu" ∉ f.components then ["No Component Chengdu"] else [])
            ++ (if f.labels = none then ["No Labels"] else [])
            ++ (if f.customfield_11807 = none then ["No Implementer"] else [])
            ++ (if "Askey-Secure" ≠ s then ["No Askey-Secure"] else []) := by
  unfold commonTail at h
  cases hd : dueTail now f with
  | none => rw [hd] at h; exact Option.noConfusion h
  | some d =>
    rw [hd] at h
    cases hs : f.security with
    | none => rw [hs] at h; exact Option.noConfusion h
    | some s =>
      rw [hs] at h
      simp only [Option.some.injEq] at h
      exact ⟨d, s, rfl, rfl, h.symm⟩

/-- Every successful run of the common checks yields a sublist of
`commonCodes` (hence each code appears at most once, in catalog order). -/
theorem commonTail_sublist {now : DateTime} {f : IssueFields} {t : List String}
    (h : commonTail now f = some t) : List.Sublist t commonCodes := by
  unfold commonTail at h
  cases hd : dueTail now f with
  | none => rw [hd] at h; exact Option.noConfusion h
  | some d =>
    rw [hd] at h
    cases hs : f.security with
    | none => rw [hs] at h; exact Option.noConfusion h
    | some s =>
      rw [hs] at h
      simp only [Option.some.injEq] at h
      subst h
      exact ((((dueTail_sublist hd).append (ite_singleton_sublist _ _)).append
        (ite_singleton_sublist _ _)).append (ite_singleton_sublist _ _)).append
        (ite_singleton_sublist _ _) |>.append (ite_singleton_sublist _ _)

/-- An absent due date makes the due-date block emit exactly `No DudeDate`. -/
theorem dueTail_duedate_none {now : DateTime} {f : IssueFields}
    (hdd : f.duedate = none) : dueTail now f = some ["No DudeDate"] := by
  unfold dueTail; rw [hdd]

/-- With the due date absent, a successful run of the common checks reports
`No DudeDate` and never `Delay`. -/
theorem commonTail_duedate_none {now : DateTime} {f : IssueFields} {t : List String}
    (hdd : f.duedate = none) (h : commonTail now f = some t) :
    "No DudeDate" ∈ t ∧ "Delay" ∉ t := by
  obtain ⟨d, s, hd, hs, ht⟩ := commonTail_some_eq h
  rw [dueTail_duedate_none hdd] at hd
  simp only [Option.some.injEq] at hd
  subst hd
  subst ht
  split_ifs <;> decide

/-- An unparsable due-date string makes the common checks raise. -/
theorem commonTail_duedate_malformed {now : DateTime} {f : IssueFields} {ds : String}
    (hdd : f.duedate = some ds) (hp : parseDateYMD ds = none) :
    commonTail now f = none := by
  simp only [commonTail, dueTail, hdd, hp]

/-- An absent security field makes the common checks raise
(`None.name` is an `AttributeError`). -/
theorem commonTail_security_none {now : DateTime} {f : IssueFields}
    (hs : f.security = none) : commonTail now f = none := by
  unfold commonTail
  rw [hs]
  cases dueTail now f <;> rfl

/-- A present security level other than `Askey-Secure` makes a successful run
report `No Askey-Secure`. -/
theorem commonTail_security_bad {now : DateTime} {f : IssueFields} {t : List String}
    {s : String} (hs : f.security = some s) (hne : s ≠ "Askey-Secure")
    (h : commonTail now f = some t) : "No Askey-Secure" ∈ t := by
  obtain ⟨d, s2, hd, hs2, ht⟩ := commonTail_some_eq h
  rw [hs] at hs2
  simp only [Option.some.injEq] at hs2
  subst hs2
  rw [if_pos (Ne.symm hne)] at ht
  subst ht
  simp

/-- A labels field that is present (not `None`) never yields `No Labels`. -/
theorem commonTail_labels_present {now : DateTime} {f : IssueFields} {t : List String}
    {ls : List String} (hlb : f.labels = some ls) (h : commonTail now f = some t) :
    "No Labels" ∉ t := by
  obtain ⟨d, s, hd, hs, ht⟩ := commonTail_some_eq h
  subst ht
  have hds := dueTail_sublist hd
  intro hm
  simp only [List.mem_append] at hm
  rcases hm with ((((hm | hm) | hm) | hm) | hm) | hm
  · exact (by decide : "No Labels" ∉ ["No DudeDate", "Delay"]) (hds.subset hm)
  · revert hm; split_ifs <;> decide
  · revert hm; split_ifs <;> decide
  · rw [hlb] at hm; revert hm; rw [if_neg (by simp)]; decide
  · revert hm; split_ifs <;> decide
  · revert hm; split_ifs <;> decide

/-! ## The pre-lists of the type-specific checks -/

/-- The type-specific codes, in the order the checks can append them. -/
def preCodes : List String :=
  ["No Analyse", "No Solution", "No Code", "No Verification", "No StoryPoints", "No SubTask"]

/-- The story checks emit a sublist of the type-specific catalog. -/
theorem storyPre_sublist (f : IssueFields) : List.Sublist (storyPre f) preCodes := by
  unfold storyPre
  cases f.customfield_10408 <;> dsimp only <;> split_ifs <;> decide

/-- The bug checks emit a sublist of the type-specific catalog. -/
theorem bugPre_sublist (f : IssueFields) : List.Sublist (bugPre f) preCodes := by
  unfold bugPre
  cases f.customfield_10408 <;> dsimp only <;> split_ifs <;> decide

/-- The review checks emit a sublist of the type-specific catalog. -/
theorem reviewPre_sublist (f : IssueFields) : List.Sublist (reviewPre f) preCodes := by
  unfold reviewPre
  cases f.customfield_10408 <;> dsimp only <;> decide

/-- Absent story points emit both `No StoryPoints` and `No SubTask` (story). -/
theorem storyPre_storyPoints_none {f : IssueFields} (h : f.customfield_10408 = none) :
    "No StoryPoints" ∈ storyPre f ∧ "No SubTask" ∈ storyPre f := by
  unfold storyPre
  rw [h]
  dsimp only
  constructor <;> simp

/-- Story points above three on a non-subtask emit `No SubTask` but not
`No StoryPoints` (story). -/
theorem storyPre_storyPoints_big {f : IssueFields} {p : Int} (h : f.customfield_10408 = some p)
    (h3 : 3 < p) (hsub : f.issuetype.subtask = false) :
    "No SubTask" ∈ storyPre f ∧ "No StoryPoints" ∉ storyPre f := by
  unfold storyPre
  rw [h]
  dsimp only
  rw [if_pos ⟨h3, hsub⟩]
  split_ifs <;> decide

/-- Story points of exactly three never emit `No SubTask` (story). -/
theorem storyPre_storyPoints_3 {f : IssueFields} (h : f.customfield_10408 = some 3) :
    "No SubTask" ∉ storyPre f := by
  unfold storyPre
  rw [h]
  dsimp only
  rw [if_neg (by rintro ⟨h3, -⟩; omega)]
  split_ifs <;> decide

/-- Absent story points emit both `No StoryPoints` and `No SubTask` (bug). -/
theorem bugPre_storyPoints_none {f : IssueFields} (h : f.customfield_10408 = none) :
    "No StoryPoints" ∈ bugPre f ∧ "No SubTask" ∈ bugPre f := by
  unfold bugPre
  rw [h]
  dsimp only
  constructor <;> simp

/-- Story points above three on a non-subtask emit `No SubTask` but not
`No StoryPoints` (bug). -/
theorem bugPre_storyPoints_big {f : IssueFields} {p : Int} (h : f.customfield_10408 = some p)
    (h3 : 3 < p) (hsub : f.issuetype.subtask = false) :
    "No SubTask" ∈ bugPre f ∧ "No StoryPoints" ∉ bugPre f := by
  unfold bugPre
  rw [h]
  dsimp only
  rw [if_pos ⟨h3, hsub⟩]
  split_ifs <;> decide

/-- Story points of exactly three never emit `No SubTask` (bug). -/
theorem bugPre_storyPoints_3 {f : IssueFields} (h : f.customfield_10408 = some 3) :
    "No SubTask" ∉ bugPre f := by
  unfold bugPre
  rw [h]
  dsimp only
  rw [if_neg (by rintro ⟨h3, -⟩; omega)]
  split_ifs <;> decide

/-! ## Dispatch lemmas for `check_issue` -/

/-- The issue-type names for which `check_issue` runs any checks. -/
def typedNames : List String := ["Story", "故事", "Bug", "缺陷", "Review"]

/-- Story dispatch (both the English and the Chinese type name). -/
theorem check_issue_story {now : DateTime} {issue : Issue}
    (h : issue.fields.issuetype.name = "Story" ∨ issue.fields.issuetype.name = "故事") :
    check_issue now issue = (commonTail now issue.fields).map (storyPre issue.fields ++ ·) := by
  have hd : check_issue now issue = check_story now issue := by
    unfold check_issue
    rcases h with h | h <;> simp [h]
  rw [hd]
  exact common_problem_eq now issue _

/-- Bug dispatch (both the English and the Chinese type name). -/
theorem check_issue_bug {now : DateTime} {issue : Issue}
    (h : issue.fields.issuetype.name = "Bug" ∨ issue.fields.issuetype.name = "缺陷") :
    check_issue now issue = (commonTail now issue.fields).map (bugPre issue.fields ++ ·) := by
  have hd : check_issue now issue = check_bug now issue := by
    unfold check_issue
    rcases h with h | h <;> simp [h]
  rw [hd]
  exact common_problem_eq now issue _

/-- Review dispatch. -/
theorem check_issue_review {now : DateTime} {issue : Issue}
    (h : issue.fields.issuetype.name = "Review") :
    check_issue now issue = (commonTail now issue.fields).map (reviewPre issue.fields ++ ·) := by
  have hd : check_issue now issue = check_review now issue := by
    unfold check_issue
    simp [h]
  rw [hd]
  exact common_problem_eq now issue _

/-- Any typed issue's result is one of the three pre-lists followed by the
common-check codes. -/
theorem check_issue_typed {now : DateTime} {issue : Issue}
    (h : issue.fields.issuetype.name ∈ typedNames) :
    ∃ pre, (pre = storyPre issue.fields ∨ pre = bugPre issue.fields
        ∨ pre = reviewPre issue.fields) ∧
      check_issue now issue = (commonTail now issue.fields).map (pre ++ ·) := by
  simp only [typedNames, List.mem_cons, List.not_mem_nil, or_false] at h
  rcases h with h | h | h | h | h
  · exact ⟨_, Or.inl rfl, check_issue_story (Or.inl h)⟩
  · exact ⟨_, Or.inl rfl, check_issue_story (Or.inr h)⟩
  · exact ⟨_, Or.inr (Or.inl rfl), check_issue_bug (Or.inl h)⟩
  · exact ⟨_, Or.inr (Or.inl rfl), check_issue_bug (Or.inr h)⟩
  · exact ⟨_, Or.inr (Or.inr rfl), check_issue_review h⟩

/-- An issue whose type name is none of the five dispatched names gets no
checks and an empty violation list. -/
theorem check_issue_not_typed {now : DateTime} {issue : Issue}
    (h : issue.fields.issuetype.name ∉ typedNames) :
    check_issue now issue = some [] := by
  simp only [typedNames, List.mem_cons, List.not_mem_nil, or_false, not_or] at h
  obtain ⟨h1, h2, h3, h4, h5⟩ := h
  unfold check_issue
  simp [h1, h2, h3, h4, h5]

/-! ## Concrete fixtures -/

/-- A fixed evaluation instant: 2024-01-01 00:00. -/
def now0 : DateTime := ⟨⟨2024, 1, 1⟩, 0⟩

/-- An earlier evaluation instant: 1999-01-01 00:00. -/
def nowEarly : DateTime := ⟨⟨1999, 1, 1⟩, 0⟩

/-- The issue `AL-1` of the end-to-end scenario: a Story with no due date, no
fix versions, components `{other}`, labels and implementer `None`, security
level `Askey-Secure`, story points `5`, not a subtask, and no comments. -/
def issueAL1 : Issue :=
  { key := "AL-1"
    fields :=
      { issuetype := ⟨"Story", false⟩
        duedate := none
        resolutiondate := none
        fixVersions := []
        components := ["other"]
        labels := none
        customfield_11807 := none
        security := some "Askey-Secure"
        customfield_10408 := some 5
        comments := [] } }

/-- The violation list the code actually produces for `AL-1`. -/
def al1Violations : List String :=
  ["No Code", "No Verification", "No SubTask", "No DudeDate", "No FixVersions",
   "No Component Chengdu", "No Labels", "No Implementer"]

/-- Like `AL-1` but with the unparsable due-date string `"2023-13-45"`. -/
def issueBadDue : Issue :=
  { key := "BD-1"
    fields :=
      { issuetype := ⟨"Story", false⟩
        duedate := some "2023-13-45"
        resolutiondate := none
        fixVersions := []
        components := ["other"]
        labels := none
        customfield_11807 := none
        security := some "Askey-Secure"
        customfield_10408 := some 5
        comments := [] } }

/-- Like `AL-1` but with the Chinese Story type name. -/
def issueStoryZh : Issue :=
  { key := "ZH-1"
    fields :=
      { issuetype := ⟨"故事", false⟩
        duedate := none
        resolutiondate := none
        fixVersions := []
        components := ["other"]
        labels := none
        customfield_11807 := none
        security := some "Askey-Secure"
        customfield_10408 := some 5
        comments := [] } }

/-- Like `AL-1` but with the security field absent. -/
def issueNoSec : Issue :=
  { key := "NS-1"
    fields :=
      { issuetype := ⟨"Story", false⟩
        duedate := none
        resolutiondate := none
        fixVersions := []
        components := ["other"]
        labels := none
        customfield_11807 := none
        security := none
        customfield_10408 := some 5
        comments := [] } }

/-- A Story due on 2000-01-02, unresolved and otherwise fully compliant:
its evaluation depends on the clock instant. -/
def issueDelay : Issue :=
  { key := "DL-1"
    fields :=
      { issuetype := ⟨"Story", false⟩
        duedate := some "2000-01-02"
        resolutiondate := none
        fixVersions := ["v1"]
        components := ["chengdu"]
        labels := some ["lbl"]
        customfield_11807 := some "dev"
        security := some "Askey-Secure"
        customfield_10408 := some 3
        comments := [] } }

/-- Like `AL-1` but with the unhandled type name `Task`. -/
def issueTask : Issue :=
  { key := "T-1"
    fields :=
      { issuetype := ⟨"Task", false⟩
        duedate := none
        resolutiondate := none
        fixVersions := []
        components := ["other"]
        labels := none
        customfield_11807 := none
        security := some "Askey-Secure"
        customfield_10408 := some 5
        comments := [] } }

/-- Like `AL-1` but with the story points absent. -/
def issueSpNone : Issue :=
  { key := "SP-1"
    fields :=
      { issuetype := ⟨"Story", false⟩
        duedate := none
        resolutiondate := none
        fixVersions := []
        components := ["other"]
        labels := none
        customfield_11807 := none
        security := some "Askey-Secure"
        customfield_10408 := none
        comments := [] } }

/-- The violation list the code produces for `SP-1`. -/
def spNoneViolations : List String :=
  ["No Code", "No Verification", "No StoryPoints", "No SubTask", "No DudeDate",
   "No FixVersions", "No Component Chengdu", "No Labels", "No Implementer"]

/-! ## The claims -/

/-- C1 (counterexample): the claimed list for `AL-1` includes `No StoryPoints`,
but with `storyPoints = 5` present the code emits only `No SubTask`, so
`check_issue` does not return the claimed nine-element list. -/
theorem claim_C1_counterexample :
    check_issue now0 issueAL1 ≠
      some ["No Code", "No Verification", "No StoryPoints", "No SubTask", "No DudeDate",
        "No FixVersions", "No Component Chengdu", "No Labels", "No Implementer"] := by
  decide

/-- C1 (amended): for the concrete issue `AL-1`, `check_issue` returns exactly
the ordered list `[No Code, No Verification, No SubTask, No DudeDate,
No FixVersions, No Component Chengdu, No Labels, No Implementer]` — the claimed
list minus `No StoryPoints` (story points are present), with the common-check
codes appended after the type-specific codes and `No Askey-Secure` absent. -/
theorem claim_C1 : check_issue now0 issueAL1 = some al1Violations := by
  rfl

/-- C2 (counterexample): on the concrete Story issue whose due date is the
unparsable string `"2023-13-45"`, evaluation raises (`strptime` raises
`ValueError`, modelled by `none`), so no violation list — let alone one
containing `No DudeDate` — is produced, contrary to the claim. -/
theorem claim_C2_counterexample : check_issue now0 issueBadDue = none := by
  rfl

/-- C2 (amended): for every typed issue whose dueDate holds an unparsable date
string, evaluation raises (returns `none`); the malformed value is **not**
folded into a `No DudeDate` violation. -/
theorem claim_C2 (now : DateTime) (issue : Issue) (ds : String)
    (hty : issue.fields.issuetype.name ∈ typedNames)
    (hdd : issue.fields.duedate = some ds) (hp : parseDateYMD ds = none) :
    check_issue now issue = none := by
  obtain ⟨pre, -, heq⟩ := check_issue_typed hty
  rw [heq, commonTail_duedate_malformed hdd hp]
  rfl

theorem claim_C2_witness :
    issueBadDue.fields.duedate = some "2023-13-45" ∧ parseDateYMD "2023-13-45" = none ∧
      check_issue now0 issueBadDue = none :=
  ⟨rfl, rfl, claim_C2 now0 issueBadDue "2023-13-45" (by decide) rfl rfl⟩

/-- C3 (counterexample): the issue type name `故事` is outside
`{Story, Bug, Review}`, yet `check_issue` runs the story checks on it and
returns a non-empty violation list. -/
theorem claim_C3_counterexample :
    issueStoryZh.fields.issuetype.name ∉ ["Story", "Bug", "Review"] ∧
      check_issue now0 issueStoryZh ≠ some [] := by
  constructor <;> decide

/-- C3 (amended): for every issue whose type name is outside
`{Story, 故事, Bug, 缺陷, Review}` (the code also dispatches the two Chinese
names), `check_issue` returns the empty violation list. -/
theorem claim_C3 (now : DateTime) (issue : Issue)
    (h : issue.fields.issuetype.name ∉ typedNames) :
    check_issue now issue = some [] :=
  check_issue_not_typed h

theorem claim_C3_witness : check_issue now0 issueTask = some [] :=
  claim_C3 now0 issueTask (by decide)

/-- C4 (counterexample): on the concrete Story issue whose security field is
absent, evaluation raises (`None.name` is an `AttributeError`, modelled by
`none`) instead of treating the absence as a mismatch and reporting
`No Askey-Secure`. -/
theorem claim_C4_counterexample : check_issue now0 issueNoSec = none := by
  rfl

/-- C4 (amended): for every typed issue, an absent security field makes the
evaluation raise (returns `none`); when the field is present with a name other
than `"Askey-Secure"`, a successful evaluation's list contains
`No Askey-Secure`. -/
theorem claim_C4 (now : DateTime) (issue : Issue)
    (hty : issue.fields.issuetype.name ∈ typedNames) :
    (issue.fields.security = none → check_issue now issue = none) ∧
    (∀ s l, issue.fields.security = some s → s ≠ "Askey-Secure" →
      check_issue now issue = some l → "No Askey-Secure" ∈ l) := by
  obtain ⟨pre, -, heq⟩ := check_issue_typed hty
  constructor
  · intro hs
    rw [heq, commonTail_security_none hs]
    rfl
  · intro s l hs hne hl
    rw [heq] at hl
    obtain ⟨t, hct, hlt⟩ := Option.map_eq_some'.mp hl
    subst hlt
    exact List.mem_append_right _ (commonTail_security_bad hs hne hct)

theorem claim_C4_witness :
    issueNoSec.fields.security = none ∧ check_issue now0 issueNoSec = none :=
  ⟨rfl, (claim_C4 now0 issueNoSec (by decide)).1 rfl⟩

/-- C5 (counterexample): the same issue record, evaluated at two different
clock instants, yields different violation lists (`Delay` appears only once the
implicit `datetime.now()` read passes the due date) — so `check_issue` as
written in the code is not a pure function of the record with an explicitly
passed `now`. -/
theorem claim_C5_counterexample :
    check_issue nowEarly issueDelay ≠ check_issue now0 issueDelay := by
  decide

/-- C5 (amended): evaluation is deterministic in the record's field values and
the clock instant: two issues with identical fields evaluated at the same
instant yield identical, order-identical violation lists.  But `now` is read
implicitly via `datetime.now()` inside the delay check, not passed in, so
results at different instants may differ (see the counterexample). -/
theorem claim_C5 (now : DateTime) (i1 i2 : Issue) (h : i1.fields = i2.fields) :
    check_issue now i1 = check_issue now i2 := by
  obtain ⟨k1, f1⟩ := i1
  obtain ⟨k2, f2⟩ := i2
  dsimp only at h
  subst h
  rfl

theorem claim_C5_witness :
    check_issue now0 ⟨"K-1", issueAL1.fields⟩ = check_issue now0 ⟨"K-2", issueAL1.fields⟩ :=
  claim_C5 now0 _ _ rfl

/-- C6: for every Story or Bug issue whose evaluation succeeds: absent story
points emit both `No StoryPoints` and `No SubTask`; story points above three
on a non-subtask emit `No SubTask` but not `No StoryPoints`; story points of
exactly three never emit `No SubTask`. -/
theorem claim_C6 (now : DateTime) (issue : Issue) (l : List String)
    (hty : issue.fields.issuetype.name = "Story" ∨ issue.fields.issuetype.name = "Bug")
    (hl : check_issue now issue = some l) :
    (issue.fields.customfield_10408 = none → "No StoryPoints" ∈ l ∧ "No SubTask" ∈ l) ∧
    (∀ p : Int, issue.fields.customfield_10408 = some p → 3 < p →
      issue.fields.issuetype.subtask = false → "No SubTask" ∈ l ∧ "No StoryPoints" ∉ l) ∧
    (issue.fields.customfield_10408 = some 3 → "No SubTask" ∉ l) := by
  have hsplit : ∃ pre, (pre = storyPre issue.fields ∨ pre = bugPre issue.fields) ∧
      check_issue now issue = (commonTail now issue.fields).map (pre ++ ·) := by
    rcases hty with h | h
    · exact ⟨_, Or.inl rfl, check_issue_story (Or.inl h)⟩
    · exact ⟨_, Or.inr rfl, check_issue_bug (Or.inl h)⟩
  obtain ⟨pre, hpre, heq⟩ := hsplit
  rw [heq] at hl
  obtain ⟨t, hct, hlt⟩ := Option.map_eq_some'.mp hl
  subst hlt
  have hts := commonTail_sublist hct
  have ht1 : "No SubTask" ∉ t := fun hm =>
    (by decide : "No SubTask" ∉ commonCodes) (hts.subset hm)
  have ht2 : "No StoryPoints" ∉ t := fun hm =>
    (by decide : "No StoryPoints" ∉ commonCodes) (hts.subset hm)
  have hfacts :
      (issue.fields.customfield_10408 = none →
        "No StoryPoints" ∈ pre ∧ "No SubTask" ∈ pre) ∧
      (∀ p : Int, issue.fields.customfield_10408 = some p → 3 < p →
        issue.fields.issuetype.subtask = false →
        "No SubTask" ∈ pre ∧ "No StoryPoints" ∉ pre) ∧
      (issue.fields.customfield_10408 = some 3 → "No SubTask" ∉ pre) := by
    rcases hpre with rfl | rfl
    · exact ⟨storyPre_storyPoints_none,
        fun p hp h3 hsub => storyPre_storyPoints_big hp h3 hsub,
        storyPre_storyPoints_3⟩
    · exact ⟨bugPre_storyPoints_none,
        fun p hp h3 hsub => bugPre_storyPoints_big hp h3 hsub,
        bugPre_storyPoints_3⟩
  obtain ⟨f1, f2, f3⟩ := hfacts
  refine ⟨fun hsp => ?_, fun p hp h3 hsub => ?_, fun h3 => ?_⟩
  · obtain ⟨m1, m2⟩ := f1 hsp
    exact ⟨List.mem_append_left _ m1, List.mem_append_left _ m2⟩
  · obtain ⟨m1, m2⟩ := f2 p hp h3 hsub
    refine ⟨List.mem_append_left _ m1, fun hm => ?_⟩
    rcases List.mem_append.mp hm with hm | hm
    · exact m2 hm
    · exact ht2 hm
  · intro hm
    rcases List.mem_append.mp hm with hm | hm
    · exact f3 h3 hm
    · exact ht1 hm

theorem claim_C6_witness :
    "No StoryPoints" ∈ spNoneViolations ∧ "No SubTask" ∈ spNoneViolations :=
  (claim_C6 now0 issueSpNone spNoneViolations (Or.inl rfl) (by rfl)).1 rfl

/-- C7: for every typed issue with no due date whose evaluation succeeds, the
violation list contains `No DudeDate` and never contains `Delay`. -/
theorem claim_C7 (now : DateTime) (issue : Issue) (l : List String)
    (hty : issue.fields.issuetype.name ∈ typedNames)
    (hdd : issue.fields.duedate = none)
    (hl : check_issue now issue = some l) :
    "No DudeDate" ∈ l ∧ "Delay" ∉ l := by
  obtain ⟨pre, hpre, heq⟩ := check_issue_typed hty
  rw [heq] at hl
  obtain ⟨t, hct, hlt⟩ := Option.map_eq_some'.mp hl
  subst hlt
  obtain ⟨h1, h2⟩ := commonTail_duedate_none hdd hct
  have hpre_sub : List.Sublist pre preCodes := by
    rcases hpre with rfl | rfl | rfl
    exacts [storyPre_sublist _, bugPre_sublist _, reviewPre_sublist _]
  refine ⟨List.mem_append_right _ h1, fun hm => ?_⟩
  rcases List.mem_append.mp hm with hm | hm
  · exact (by decide : "Delay" ∉ preCodes) (hpre_sub.subset hm)
  · exact h2 hm

theorem claim_C7_witness :
    "No DudeDate" ∈ al1Violations ∧ "Delay" ∉ al1Violations :=
  claim_C7 now0 issueAL1 al1Violations (by decide) rfl (by rfl)

/-- C8: the index built by `get_project_problem` never maps an issue key to an
empty violation list, and the index over an empty issue sequence is empty. -/
theorem claim_C8 (now : DateTime) :
    get_project_problem now [] = some [] ∧
    ∀ (issues : List Issue) (idx : List (String × List String)),
      get_project_problem now issues = some idx →
      ∀ k l, (k, l) ∈ idx → l ≠ [] := by
  refine ⟨rfl, ?_⟩
  intro issues
  induction issues with
  | nil =>
    intro idx h k l hm
    simp only [get_project_problem, Option.some.injEq] at h
    subst h
    exact absurd hm (List.not_mem_nil _)
  | cons i rest ih =>
    intro idx h k l hm
    unfold get_project_problem at h
    cases hc : check_issue now i with
    | none => rw [hc] at h; exact Option.noConfusion h
    | some unq =>
      rw [hc] at h
      cases hr : get_project_problem now rest with
      | none => rw [hr] at h; exact Option.noConfusion h
      | some tail =>
        rw [hr] at h
        dsimp only at h
        split_ifs at h with hlen
        · simp only [Option.some.injEq] at h
          subst h
          rcases List.mem_cons.mp hm with hm | hm
          · injection hm with hk hl2
            subst hl2
            intro hnil
            subst hnil
            exact hlen rfl
          · exact ih tail hr k l hm
        · simp only [Option.some.injEq] at h
          subst h
          exact ih tail hr k l hm

theorem claim_C8_witness : al1Violations ≠ [] :=
  (claim_C8 now0).2 [issueAL1] [("AL-1", al1Violations)] (by rfl) "AL-1" al1Violations
    (by simp)

/-- C9: every violation list a successful evaluation returns is duplicate-free,
for every issue type and field configuration. -/
theorem claim_C9 (now : DateTime) (issue : Issue) (l : List String)
    (hl : check_issue now issue = some l) : l.Nodup := by
  by_cases hty : issue.fields.issuetype.name ∈ typedNames
  · obtain ⟨pre, hpre, heq⟩ := check_issue_typed hty
    rw [heq] at hl
    obtain ⟨t, hct, hlt⟩ := Option.map_eq_some'.mp hl
    subst hlt
    have hpre_sub : List.Sublist pre preCodes := by
      rcases hpre with rfl | rfl | rfl
      exacts [storyPre_sublist _, bugPre_sublist _, reviewPre_sublist _]
    have hts := commonTail_sublist hct
    exact List.Nodup.append (hpre_sub.nodup (by decide)) (hts.nodup (by decide))
      (fun a ha hat =>
        (by decide : ∀ a ∈ preCodes, a ∉ commonCodes) a (hpre_sub.subset ha)
          (hts.subset hat))
  · rw [check_issue_not_typed hty] at hl
    simp only [Option.some.injEq] at hl
    subst hl
    exact List.nodup_nil

theorem claim_C9_witness : al1Violations.Nodup :=
  claim_C9 now0 issueAL1 al1Violations (by rfl)

/-- C10: a labels field that is present — even as an empty collection — never
yields `No Labels`; only a `None` labels field triggers it. -/
theorem claim_C10 (now : DateTime) (issue : Issue) (l : List String) (ls : List String)
    (hty : issue.fields.issuetype.name ∈ typedNames)
    (hlb : issue.fields.labels = some ls)
    (hl : check_issue now issue = some l) : "No Labels" ∉ l := by
  obtain ⟨pre, hpre, heq⟩ := check_issue_typed hty
  rw [heq] at hl
  obtain ⟨t, hct, hlt⟩ := Option.map_eq_some'.mp hl
  subst hlt
  have hpre_sub : List.Sublist pre preCodes := by
    rcases hpre with rfl | rfl | rfl
    exacts [storyPre_sublist _, bugPre_sublist _, reviewPre_sublist _]
  intro hm
  rcases List.mem_append.mp hm with hm | hm
  · exact (by decide : "No Labels" ∉ preCodes) (hpre_sub.subset hm)
  · exact commonTail_labels_present hlb hct hm

theorem claim_C10_witness :
    "No Labels" ∉ ["No Code", "No Verification", "Delay"] :=
  claim_C10 now0 issueDelay ["No Code", "No Verification", "Delay"] ["lbl"]
    (by decide) rfl (by rfl)

end JiraCheck
